import Mathlib

/-!
Verification development for the KAFY trajectory tokenize/detokenize core
(`KAFY/utilFunctions.py`).

Modelling conventions:
* Python floats are modelled as real numbers (`ℝ`); the development is about
  the exact mathematical functions the code computes, not IEEE-754 rounding.
* The external H3 grid library (`h3.geo_to_h3`, `h3.h3_to_geo`,
  `h3.h3_is_valid`) is an abstract `GridIndex` parameter: the code treats it
  as a pure black box.
* The pickled model store (`h3_clusters` / `h3_kmeans`) is an abstract
  `DeTokenizerStore` parameter; the k-means model object's `predict` method
  is an abstract function from a bearing to a cluster label, and `means` is
  the ordered list of `(x, y, count)` triples it indexes.
* Python code paths that can raise are modelled with `Option`: `none` is an
  escaped exception.  Two such paths exist: the `means[...]` indexing in
  the classifier tier of the method, and — decisive for the detokenization
  loop — the call `DeTokenizer.token2point_cluster_centroid(token,
  previous_point)` at source line 76, an unbound access to the
  3-parameter instance method with only two positional arguments, which
  raises `TypeError` on every structurally valid token.
* Metadata lines (`load_metadata`) are modelled as lists of characters.
-/

set_option autoImplicit false

namespace KAFY

/-! ### Metadata loader (`load_metadata`), modelled on `List Char` -/

/-- Model of Python `s.split(": ", 1)` followed by unpacking into exactly two
variables: split at the first occurrence of the two-character separator
`": "`; `none` when the separator does not occur (Python raises
`ValueError` on the unpacking in that case). -/
def splitOnSep : List Char → Option (List Char × List Char)
  | [] => none
  | [_] => none
  | c1 :: c2 :: rest =>
    if c1 == ':' && c2 == ' ' then some ([], rest)
    else (splitOnSep (c2 :: rest)).map fun p => (c1 :: p.1, p.2)

/-- Whether the two-character separator `": "` occurs somewhere in the line. -/
def hasSep : List Char → Bool
  | [] => false
  | [_] => false
  | c1 :: c2 :: rest => (c1 == ':' && c2 == ' ') || hasSep (c2 :: rest)

/-- Model of Python `str.strip()`: remove leading and trailing whitespace. -/
def pystrip (cs : List Char) : List Char :=
  ((cs.dropWhile Char.isWhitespace).reverse.dropWhile Char.isWhitespace).reverse

/-- One iteration of the `load_metadata` loop body:
`key, value = line.strip().split(": ", 1)`. -/
def parse_metadata_line (line : List Char) : Option (List Char × List Char) :=
  splitOnSep (pystrip line)

/-- Model of `load_metadata`: the file is the list of its lines; the
resulting dict is modelled as the ordered list of key/value pairs inserted
into it.  `none` models the `ValueError` escaping from the loop (the whole
call fails; no partial mapping is returned). -/
def load_metadata : List (List Char) → Option (List (List Char × List Char))
  | [] => some []
  | line :: rest =>
    match parse_metadata_line line with
    | none => none
    | some kv => (load_metadata rest).map fun m => kv :: m

/-! ### Geometry: radians/degrees, float modulo, `math.atan2`, bearing -/

noncomputable section

/-- Python `math.radians`. -/
def radians (d : ℝ) : ℝ := d * Real.pi / 180

/-- Python `math.degrees`. -/
def degrees (r : ℝ) : ℝ := r * 180 / Real.pi

/-- Python float modulo `a % b` (result has the sign of `b`; for `b > 0`
this is `a - b * ⌊a / b⌋`). -/
def pymod (a b : ℝ) : ℝ := a - b * (⌊a / b⌋ : ℝ)

/-- Python `math.atan2 y x`: the angle of the vector `(x, y)`, in `(-π, π]`
(signed zeros of IEEE floats are not modelled; `atan2 0 0 = 0`). -/
def atan2 (y x : ℝ) : ℝ :=
  if 0 < x then Real.arctan (y / x)
  else if x < 0 then
    (if 0 ≤ y then Real.arctan (y / x) + Real.pi else Real.arctan (y / x) - Real.pi)
  else
    (if 0 < y then Real.pi / 2 else if y < 0 then -(Real.pi / 2) else 0)

/-- Represents a geographical point: `x` is longitude, `y` is latitude. -/
structure Point where
  x : ℝ
  y : ℝ

/-- `Point.calculate_bearing`: bearing from `point_a` to `point_b`, both
given as `(latitude, longitude)` pairs.  (In the source this is an instance
method whose `self` argument is unused; it is modelled as a plain function
of the two pairs.) -/
def Point.calculate_bearing (point_a point_b : ℝ × ℝ) : ℝ :=
  let lat1 := radians point_a.1
  let lat2 := radians point_b.1
  let diff_long := radians (point_b.2 - point_a.2)
  let x := Real.sin diff_long * Real.cos lat2
  let y := Real.cos lat1 * Real.sin lat2 -
    Real.sin lat1 * Real.cos lat2 * Real.cos diff_long
  let initial_bearing := atan2 x y
  pymod (degrees initial_bearing + 360) 360

/-- The forward-azimuth formula exactly as the spec states it (§4.2):
`Δλ = to.lon - from.lon`, `x = sin(Δλ)·cos(lat2)`,
`y = cos(lat1)·sin(lat2) − sin(lat1)·cos(lat2)·cos(Δλ)`,
`bearing = (degrees(atan2(x, y)) + 360) mod 360`, all trigonometric inputs
converted from degrees to radians; arguments are `(latitude, longitude)`
pairs. -/
def spec_forward_azimuth (fromP toP : ℝ × ℝ) : ℝ :=
  let dlam := radians (toP.2 - fromP.2)
  let lat1 := radians fromP.1
  let lat2 := radians toP.1
  let x := Real.sin dlam * Real.cos lat2
  let y := Real.cos lat1 * Real.sin lat2 -
    Real.sin lat1 * Real.cos lat2 * Real.cos dlam
  pymod (degrees (atan2 x y) + 360) 360

/-! ### Grid index, model store, tokenizer, detokenizer -/

/-- The external H3 grid capability, as the code consumes it.
`h3_to_geo` returns a `(latitude, longitude)` pair. -/
structure GridIndex where
  geo_to_h3 : ℝ → ℝ → ℕ → String
  h3_to_geo : String → ℝ × ℝ
  h3_is_valid : String → Bool

/-- One entry of the pickled `h3_clusters` dict:
`{"x": ..., "y": ..., "current_count": ...}`. -/
structure ClusterStat where
  x : ℝ
  y : ℝ
  current_count : ℕ

/-- One entry of the pickled `h3_kmeans` dict: the pair `(m, means)` where
`m.predict` maps a 1-feature bearing to a cluster label and `means` is the
ordered list of `(x, y, count)` triples indexed by that label. -/
structure ClassifierEntry where
  predict : ℝ → ℕ
  means : List (ℝ × ℝ × ℝ)

/-- The `DeTokenizer` instance state after `__init__` succeeded: its two
read-only dict attributes, as partial maps from tokens. -/
structure DeTokenizerStore where
  h3_clusters : String → Option ClusterStat
  h3_kmeans : String → Option ClassifierEntry

/-- `token2centroid_h3_yx`: wrapper around `h3.geo_to_h3`. -/
def token2centroid_h3_yx (g : GridIndex) (lat lon : ℝ) (res : ℕ) : String :=
  g.geo_to_h3 lat lon res

/-- `tokenize_trajectory`: `[token2centroid_h3_yx(lat, lon, resolution)
for lat, lon in trajectory]`. -/
def tokenize_trajectory (g : GridIndex) (trajectory : List (ℝ × ℝ))
    (resolution : ℕ) : List String :=
  trajectory.map fun p => token2centroid_h3_yx g p.1 p.2 resolution

namespace DeTokenizer

/-- `DeTokenizer.token2point_h3_centroid`:
`y, x = h3.h3_to_geo(token); return Point(x, y)`. -/
def token2point_h3_centroid (g : GridIndex) (token : String) : Point :=
  ⟨(g.h3_to_geo token).2, (g.h3_to_geo token).1⟩

/-- `DeTokenizer.token2point_data_centroid`: the data-centroid tier with
fallback to the H3 centroid. -/
def token2point_data_centroid (g : GridIndex) (S : DeTokenizerStore)
    (token : String) : Point :=
  match S.h3_clusters token with
  | some cluster => ⟨cluster.x, cluster.y⟩
  | none => token2point_h3_centroid g token

/-- `DeTokenizer.token2point_cluster_centroid`: the full three-tier
resolution.  `none` models the `IndexError` escaping from
`means[m.predict(...)]` when the predicted label is out of range of
`means`; every other path returns normally. -/
def token2point_cluster_centroid (g : GridIndex) (S : DeTokenizerStore)
    (token : String) (previous_point : Option Point) : Option Point :=
  let c := token2point_data_centroid g S token
  match S.h3_kmeans token with
  | none => some c
  | some entry =>
    match previous_point with
    | none => some c
    | some prev =>
      if (match S.h3_clusters token with
          | some stat => decide (stat.current_count ≤ 20)
          | none => false) then
        some c
      else
        let angle := Point.calculate_bearing (prev.y, prev.x) (c.y, c.x)
        match entry.means.get? (entry.predict angle) with
        | some m => some ⟨m.1, m.2.1⟩
        | none => none

end DeTokenizer

/-- Python `round(r, 6)`, modelled as exact rounding to 6 decimal places
(the half-to-even tie rule of float `round` is immaterial here and is
modelled as ordinary rounding).  The source applies it at line 78 to the
coordinates appended by the detokenization loop — a statement that is
never reached, because line 76 raises first on every valid token. -/
def round6 (r : ℝ) : ℝ := (round (r * 10 ^ 6) : ℤ) / 10 ^ 6

/-- The loop of `detokenize_trajectory`, carrying `previous_point`.
`none` models an exception escaping the loop (in which case the partially
built list is never returned).

For a valid token the source (line 76) executes
`DeTokenizer.token2point_cluster_centroid(token, previous_point)`: this is
an *unbound* class attribute access — no `DeTokenizer` instance exists in
this flow — called with two positional arguments against the signature
`(self, token, previous_point)`, so Python binds `self` to the token
string, `token` to `previous_point`, leaves `previous_point` missing, and
raises `TypeError` before the tier resolution, the rounding at line 78, or
the `previous_point` update at line 77 can run.  The loop therefore never
consults any store and never appends a point; only the invalid-token skip
branch is reachable without raising. -/
def detokenize_go (g : GridIndex) :
    List String → Option Point → Option (List (ℝ × ℝ))
  | [], _ => some []
  | token :: rest, previous_point =>
    if g.h3_is_valid token then
      none
    else
      detokenize_go g rest previous_point

/-- `detokenize_trajectory`: `previous_point` starts as `None`. -/
def detokenize_trajectory (g : GridIndex)
    (tokenized_trajectory : List String) : Option (List (ℝ × ℝ)) :=
  detokenize_go g tokenized_trajectory none

/-- A successfully initialized model store, as §3/§4.3 of the spec shape
it: every classifier entry's predictor yields labels that index its
`means` sequence. -/
def WellFormedStore (S : DeTokenizerStore) : Prop :=
  ∀ t e, S.h3_kmeans t = some e → ∀ a : ℝ, e.predict a < e.means.length

/-! ### Concrete instances used to evaluate the theorems on closed inputs -/

/-- A grid index whose every token is valid and whose centroids are all the
origin. -/
def gAllValid : GridIndex := ⟨fun _ _ _ => "t", fun _ => (0, 0), fun _ => true⟩

/-- A grid index that rejects every token. -/
def gNoneValid : GridIndex := ⟨fun _ _ _ => "t", fun _ => (0, 0), fun _ => false⟩

/-- A grid index on which only the token `"b"` is structurally valid. -/
def gMixed : GridIndex := ⟨fun _ _ _ => "t", fun _ => (0, 0), fun s => s == "b"⟩

/-- The empty model store. -/
def emptyStore : DeTokenizerStore := ⟨fun _ => none, fun _ => none⟩

/-- A store whose every token has 20 observed samples and a classifier. -/
def store20 : DeTokenizerStore :=
  ⟨fun _ => some ⟨1, 2, 20⟩, fun _ => some ⟨fun _ => 0, [(5, 6, 7)]⟩⟩

/-- A store whose every token has 21 observed samples and a classifier. -/
def store21 : DeTokenizerStore :=
  ⟨fun _ => some ⟨1, 2, 21⟩, fun _ => some ⟨fun _ => 0, [(5, 6, 7)]⟩⟩

end

/-! ### Helper lemmas -/

/-- With a well-formed store, the three-tier resolution never hits the
out-of-range branch of the classifier tier. -/
theorem cluster_centroid_total (g : GridIndex) (S : DeTokenizerStore)
    (hS : WellFormedStore S) (token : String) (prev : Option Point) :
    ∃ p, DeTokenizer.token2point_cluster_centroid g S token prev = some p := by
  simp only [DeTokenizer.token2point_cluster_centroid]
  cases hk : S.h3_kmeans token with
  | none => simp
  | some e =>
    cases prev with
    | none => simp
    | some p =>
      cases hcl : S.h3_clusters token with
      | none =>
        simp only [Bool.false_eq_true, if_false]
        split
        · exact ⟨_, rfl⟩
        · next heq =>
          exact absurd (hS token e hk _) (Nat.not_lt.mpr (List.get?_eq_none.mp heq))
      | some stat =>
        by_cases hle : stat.current_count ≤ 20
        · simp [hle]
        · simp only [decide_eq_true_eq, if_neg hle]
          split
          · exact ⟨_, rfl⟩
          · next heq =>
            exact absurd (hS token e hk _) (Nat.not_lt.mpr (List.get?_eq_none.mp heq))

/-- A structurally valid token anywhere in the remaining input makes the
whole detokenization loop raise. -/
theorem detokenize_go_none_of_valid (g : GridIndex) :
    ∀ (tokens : List String) (t : String) (prev : Option Point),
      t ∈ tokens → g.h3_is_valid t = true →
      detokenize_go g tokens prev = none := by
  intro tokens
  induction tokens with
  | nil => intro t prev hmem; exact absurd hmem (List.not_mem_nil t)
  | cons u rest ih =>
    intro t prev hmem hv
    by_cases hu : g.h3_is_valid u = true
    · simp [detokenize_go, hu]
    · have hu' : g.h3_is_valid u = false := by simpa using hu
      rcases List.mem_cons.mp hmem with rfl | hmem'
      · exact absurd hv (by simp [hu'])
      · simp [detokenize_go, hu', ih t prev hmem' hv]

/-- When every remaining token is invalid the loop returns the empty
list. -/
theorem detokenize_go_all_invalid (g : GridIndex) :
    ∀ (tokens : List String) (prev : Option Point),
      (∀ t ∈ tokens, g.h3_is_valid t = false) →
      detokenize_go g tokens prev = some [] := by
  intro tokens
  induction tokens with
  | nil => intro prev _; rfl
  | cons u rest ih =>
    intro prev h
    have hu := h u (List.mem_cons_self u rest)
    simp [detokenize_go, hu,
      ih prev fun t ht => h t (List.mem_cons_of_mem u ht)]

/-- Conversely, the loop returns a list only when every remaining token is
invalid, and that list is empty. -/
theorem detokenize_go_some (g : GridIndex) :
    ∀ (tokens : List String) (prev : Option Point) (out : List (ℝ × ℝ)),
      detokenize_go g tokens prev = some out →
      out = [] ∧ ∀ t ∈ tokens, g.h3_is_valid t = false := by
  intro tokens
  induction tokens with
  | nil =>
    intro prev out h
    refine ⟨?_, by simp⟩
    simpa [detokenize_go] using h.symm
  | cons u rest ih =>
    intro prev out h
    by_cases hu : g.h3_is_valid u = true
    · simp [detokenize_go, hu] at h
    · have hu' : g.h3_is_valid u = false := by simpa using hu
      rw [detokenize_go, if_neg (by simp [hu'])] at h
      obtain ⟨h1, h2⟩ := ih prev out h
      refine ⟨h1, ?_⟩
      intro t ht
      rcases List.mem_cons.mp ht with rfl | ht'
      · exact hu'
      · exact h2 t ht'

/-- Python float modulo by a positive modulus lands in `[0, b)`. -/
theorem pymod_range (a : ℝ) : 0 ≤ pymod a 360 ∧ pymod a 360 < 360 := by
  have hfr : pymod a 360 = 360 * Int.fract (a / 360) := by
    unfold pymod Int.fract
    field_simp
  constructor
  · rw [hfr]
    exact mul_nonneg (by norm_num) (Int.fract_nonneg _)
  · rw [hfr]
    have h1 := Int.fract_lt_one (a / 360)
    nlinarith

/-- The bearing of due-east motion on the equator. -/
theorem bearing_east_value : Point.calculate_bearing (0, 0) (0, 90) = 90 := by
  have hr0 : radians 0 = 0 := by unfold radians; ring
  have hr90 : radians 90 = Real.pi / 2 := by unfold radians; ring
  simp only [Point.calculate_bearing]
  norm_num [hr0, hr90, Real.sin_pi_div_two, Real.cos_pi_div_two,
    Real.sin_zero, Real.cos_zero]
  have hatan : atan2 1 0 = Real.pi / 2 := by unfold atan2; norm_num
  have hdeg : degrees (Real.pi / 2) = 90 := by
    unfold degrees
    field_simp
    ring
  rw [hatan, hdeg]
  have hfl : ⌊(450 : ℝ) / 360⌋ = 1 := by
    rw [Int.floor_eq_iff]; norm_num
  unfold pymod
  rw [show (90 : ℝ) + 360 = 450 by norm_num, hfl]
  norm_num

/-- The bearing of due-north motion from the equator. -/
theorem bearing_north_value : Point.calculate_bearing (0, 0) (90, 0) = 0 := by
  have hr0 : radians 0 = 0 := by unfold radians; ring
  have hr90 : radians 90 = Real.pi / 2 := by unfold radians; ring
  simp only [Point.calculate_bearing]
  norm_num [hr0, hr90, Real.sin_pi_div_two, Real.cos_pi_div_two,
    Real.sin_zero, Real.cos_zero]
  have hatan : atan2 0 1 = 0 := by unfold atan2; norm_num
  have hdeg : degrees 0 = 0 := by unfold degrees; ring
  rw [hatan, hdeg]
  have hfl : ⌊(360 : ℝ) / 360⌋ = 1 := by
    rw [Int.floor_eq_iff]; norm_num
  unfold pymod
  rw [show (0 : ℝ) + 360 = 360 by norm_num, hfl]
  norm_num

/-- `splitOnSep` returns `none` exactly on lines without the separator. -/
theorem splitOnSep_eq_none (cs : List Char) (h : hasSep cs = false) :
    splitOnSep cs = none := by
  induction cs with
  | nil => rfl
  | cons c rest ih =>
    cases rest with
    | nil => rfl
    | cons c2 rest2 =>
      rw [hasSep, Bool.or_eq_false_iff] at h
      rw [splitOnSep, if_neg (by simp [h.1]), ih h.2]
      rfl

/-- `splitOnSep` splits at the first separator occurrence: when the prefix
`k` is separator-free, the suffix `v` is returned whole, whatever it
contains. -/
theorem splitOnSep_append (k v : List Char) (h : hasSep k = false) :
    splitOnSep (k ++ ':' :: ' ' :: v) = some (k, v) := by
  induction k with
  | nil =>
    have h3 : ((':' == ':' && ' ' == ' ') = true) := rfl
    rw [List.nil_append, splitOnSep, if_pos h3]
  | cons c k ih =>
    cases k with
    | nil =>
      have h2 : (':' == ' ') = false := rfl
      have h3 : ((':' == ':' && ' ' == ' ') = true) := rfl
      rw [List.cons_append, List.nil_append, splitOnSep, h2,
        Bool.and_false, if_neg (by simp), splitOnSep, if_pos h3]
      rfl
    | cons c2 k2 =>
      rw [hasSep, Bool.or_eq_false_iff] at h
      rw [List.cons_append, List.cons_append, splitOnSep,
        if_neg (by simp [h.1]), ← List.cons_append, ih h.2]
      rfl

/-! ### Claim theorems -/

/-- Claim C1 (code bug): far from returning normally, the program's
`detokenize_trajectory` raises `TypeError` — modelled as `none` — on every
token sequence containing a structurally valid token: line 76 calls the
3-parameter instance method `DeTokenizer.token2point_cluster_centroid`
unbound with only two arguments, against the docstring's promise of a
reconstructed point list.  The claim describes the spec's (and the
docstring's) intent; the code contradicts it. -/
theorem detokenize_raises_on_valid_token (g : GridIndex)
    (tokens : List String) (t : String) (hmem : t ∈ tokens)
    (hv : g.h3_is_valid t = true) :
    detokenize_trajectory g tokens = none :=
  detokenize_go_none_of_valid g tokens t none hmem hv

/-- Witness for the C1 bug theorem: one valid token already raises. -/
theorem detokenize_raises_on_valid_token_witness :
    detokenize_trajectory gAllValid ["a"] = none :=
  detokenize_raises_on_valid_token gAllValid ["a"] "a"
    (List.mem_singleton.mpr rfl) rfl

/-- Claim C4 (code bug): the claimed length invariant fails because the
loop raises on every valid token.  What the program actually satisfies:
whenever it returns a list at all, that list is empty and every input
token was invalid — so `len(output) = len(input)` holds only for the
empty input, and any nonempty all-valid input produces an exception
instead of a full-length output. -/
theorem detokenize_length_bug (g : GridIndex) (tokens : List String) :
    (∀ out, detokenize_trajectory g tokens = some out →
      out = [] ∧ ∀ t ∈ tokens, g.h3_is_valid t = false) ∧
    ((∀ t ∈ tokens, g.h3_is_valid t = false) →
      detokenize_trajectory g tokens = some []) :=
  ⟨fun out hout => detokenize_go_some g tokens none out hout,
   fun h => detokenize_go_all_invalid g tokens none h⟩

/-- Witness for the C4 bug theorem: an all-invalid input returns the empty
list, and the converse direction recovers that its tokens are invalid. -/
theorem detokenize_length_bug_witness :
    detokenize_trajectory gNoneValid ["a"] = some [] ∧
    (([] : List (ℝ × ℝ)) = [] ∧
      ∀ t ∈ ["a"], gNoneValid.h3_is_valid t = false) :=
  ⟨(detokenize_length_bug gNoneValid ["a"]).2 (by simp [gNoneValid]),
   (detokenize_length_bug gNoneValid ["a"]).1 []
     ((detokenize_length_bug gNoneValid ["a"]).2 (by simp [gNoneValid]))⟩

/-- Claim C8: tokenization output has exactly the input's length and its
`i`-th token is the grid index applied to the `i`-th input point alone —
a stateless independent map. -/
theorem tokenize_length_and_pointwise (g : GridIndex)
    (trajectory : List (ℝ × ℝ)) (resolution : ℕ) :
    (tokenize_trajectory g trajectory resolution).length =
      trajectory.length ∧
    ∀ i : ℕ, (tokenize_trajectory g trajectory resolution).get? i =
      (trajectory.get? i).map
        fun p => token2centroid_h3_yx g p.1 p.2 resolution := by
  constructor
  · simp [tokenize_trajectory]
  · intro i
    simp [tokenize_trajectory]

/-- Claim C9 (code bug): the two faithful halves of the ordering story
hold — `h3_to_geo`'s `(latitude, longitude)` is stored reversed as
`Point(x = longitude, y = latitude)`, and tokenize consumes
`(latitude, longitude)` pairs — but detokenize emits no output tuple at
all whose ordering could match: on a valid token it raises `TypeError`
at the unbound resolve call (line 76). -/
theorem coordinate_ordering_bug (g : GridIndex) (token : String)
    (lat lon : ℝ) (res : ℕ) (hv : g.h3_is_valid token = true)
    (hg : g.h3_to_geo token = (lat, lon)) :
    DeTokenizer.token2point_h3_centroid g token = ⟨lon, lat⟩ ∧
    tokenize_trajectory g [(lat, lon)] res = [g.geo_to_h3 lat lon res] ∧
    detokenize_trajectory g [token] = none := by
  refine ⟨?_, ?_, ?_⟩
  · simp [DeTokenizer.token2point_h3_centroid, hg]
  · simp [tokenize_trajectory, token2centroid_h3_yx]
  · simp [detokenize_trajectory, detokenize_go, hv]

/-- Witness for the C9 bug theorem at the origin. -/
theorem coordinate_ordering_bug_witness :
    DeTokenizer.token2point_h3_centroid gAllValid "a" = ⟨0, 0⟩ ∧
    tokenize_trajectory gAllValid [((0 : ℝ), (0 : ℝ))] 9 =
      [gAllValid.geo_to_h3 0 0 9] ∧
    detokenize_trajectory gAllValid ["a"] = none :=
  coordinate_ordering_bug gAllValid "a" 0 0 9 rfl rfl

/-- Claim C2: a token whose ClusterStat has `current_count = 20` resolves to
the unrefined Tier-2 point `(stat.x, stat.y)` whatever the classifier map
and the previous point are; with `current_count = 21`, a present classifier
entry and a defined previous point, it resolves to the classifier-refined
cluster-centroid point taken from `means` at the label predicted from the
bearing. -/
theorem threshold_boundary (g : GridIndex) (S : DeTokenizerStore) :
    (∀ token prev stat, S.h3_clusters token = some stat →
      stat.current_count = 20 →
      DeTokenizer.token2point_cluster_centroid g S token prev =
        some ⟨stat.x, stat.y⟩) ∧
    (∀ token (p : Point) stat e x y cnt, S.h3_clusters token = some stat →
      stat.current_count = 21 →
      S.h3_kmeans token = some e →
      e.means.get? (e.predict
        (Point.calculate_bearing (p.y, p.x) (stat.y, stat.x))) =
          some (x, y, cnt) →
      DeTokenizer.token2point_cluster_centroid g S token (some p) =
        some ⟨x, y⟩) := by
  constructor
  · intro token prev stat hcl hcount
    simp only [DeTokenizer.token2point_cluster_centroid,
      DeTokenizer.token2point_data_centroid, hcl, hcount]
    cases hk : S.h3_kmeans token with
    | none => rfl
    | some e => cases prev <;> simp
  · intro token p stat e x y cnt hcl hcount hk hget
    simp only [DeTokenizer.token2point_cluster_centroid,
      DeTokenizer.token2point_data_centroid, hcl, hcount, hk]
    rw [List.get?_eq_getElem?] at hget
    simp [hget]

/-- Witness for C2, on concrete stores: with 20 samples the Tier-2 centroid
`(1, 2)` is returned even though a classifier and a previous point are
present; with 21 samples the classifier's cluster mean `(5, 6)` is
returned. -/
theorem threshold_boundary_witness :
    DeTokenizer.token2point_cluster_centroid gAllValid store20 "a"
      (some ⟨3, 4⟩) = some ⟨(1 : ℝ), 2⟩ ∧
    DeTokenizer.token2point_cluster_centroid gAllValid store21 "a"
      (some ⟨3, 4⟩) = some ⟨(5 : ℝ), 6⟩ :=
  ⟨(threshold_boundary gAllValid store20).1 "a" (some ⟨3, 4⟩) ⟨1, 2, 20⟩
      rfl rfl,
   (threshold_boundary gAllValid store21).2 "a" ⟨3, 4⟩ ⟨1, 2, 21⟩
      ⟨fun _ => 0, [(5, 6, 7)]⟩ 5 6 7 rfl rfl rfl rfl⟩

/-- Claim C3: a token present in neither store mapping resolves, for every
previous point, to exactly the Tier-1 H3 grid-cell centroid. -/
theorem unknown_token_resolves_to_h3_centroid (g : GridIndex)
    (S : DeTokenizerStore) (token : String) (prev : Option Point)
    (hcl : S.h3_clusters token = none) (hk : S.h3_kmeans token = none) :
    DeTokenizer.token2point_cluster_centroid g S token prev =
      some (DeTokenizer.token2point_h3_centroid g token) := by
  simp [DeTokenizer.token2point_cluster_centroid,
    DeTokenizer.token2point_data_centroid, hcl, hk]

/-- Witness for C3 on the empty store. -/
theorem unknown_token_resolves_to_h3_centroid_witness :
    DeTokenizer.token2point_cluster_centroid gAllValid emptyStore "a"
      (some ⟨3, 4⟩) =
      some (DeTokenizer.token2point_h3_centroid gAllValid "a") :=
  unknown_token_resolves_to_h3_centroid gAllValid emptyStore "a"
    (some ⟨3, 4⟩) rfl rfl

/-- Claim C5 (code bug): the skip half of the claim is real — an invalid
token appends nothing and leaves the loop state exactly as it was — but
the claimed consequence never occurs: the next valid token raises
`TypeError` at the unbound resolve call (line 76) before any Tier-3
bearing could be computed from the carried state. -/
theorem invalid_skip_then_raise (g : GridIndex) (bad t : String)
    (rest : List String) (previous_point : Option Point)
    (hbad : g.h3_is_valid bad = false) (hv : g.h3_is_valid t = true) :
    detokenize_go g (bad :: t :: rest) previous_point =
      detokenize_go g (t :: rest) previous_point ∧
    detokenize_go g (t :: rest) previous_point = none := by
  constructor
  · simp [detokenize_go, hbad]
  · simp [detokenize_go, hv]

/-- Witness for the C5 bug theorem: the invalid `"a"` is skipped with the
state untouched, then the valid `"b"` raises. -/
theorem invalid_skip_then_raise_witness :
    detokenize_go gMixed ["a", "b"] (some ⟨3, 4⟩) =
      detokenize_go gMixed ["b"] (some ⟨3, 4⟩) ∧
    detokenize_go gMixed ["b"] (some ⟨3, 4⟩) = none :=
  invalid_skip_then_raise gMixed "a" "b" [] (some ⟨3, 4⟩)
    (by decide) (by decide)

/-- Claim C7 (code bug): the claimed rounding boundary is never reached.
On a valid token the loop raises at the unbound resolve call (line 76),
before the `round(..., 6)` at line 78 or the `previous_point` update at
line 77 can run, so no coordinate — rounded or unrounded — is ever
appended or threaded. -/
theorem no_rounding_boundary_reached (g : GridIndex) (token : String)
    (rest : List String) (previous_point : Option Point)
    (hv : g.h3_is_valid token = true) :
    detokenize_go g (token :: rest) previous_point = none := by
  simp [detokenize_go, hv]

/-- Claim C6: for every pair of `(latitude, longitude)` inputs the code's
bearing equals the spec's forward-azimuth formula and lies in `[0, 360)`;
in particular `bearing (0,0) (0,90) = 90` and `bearing (0,0) (90,0) = 0`. -/
theorem bearing_matches_spec :
    (∀ a b : ℝ × ℝ, Point.calculate_bearing a b = spec_forward_azimuth a b) ∧
    (∀ a b : ℝ × ℝ, 0 ≤ Point.calculate_bearing a b ∧
      Point.calculate_bearing a b < 360) ∧
    Point.calculate_bearing (0, 0) (0, 90) = 90 ∧
    Point.calculate_bearing (0, 0) (90, 0) = 0 := by
  refine ⟨fun a b => rfl, fun a b => ?_, bearing_east_value,
    bearing_north_value⟩
  simp only [Point.calculate_bearing]
  exact pymod_range _

/-- Claim C10: the metadata loader splits a line only at the first
occurrence of the separator `": "` (a separator-free key prefix yields the
whole remainder as the value, even when the value itself contains `": "`),
and a line with no separator makes the whole load fail rather than being
skipped. -/
theorem metadata_split_semantics (k v line : List Char)
    (rest : List (List Char)) (hk : hasSep k = false)
    (hline : hasSep (pystrip line) = false) :
    splitOnSep (k ++ ':' :: ' ' :: v) = some (k, v) ∧
    parse_metadata_line line = none ∧
    load_metadata (line :: rest) = none := by
  have hnone : splitOnSep (pystrip line) = none := splitOnSep_eq_none _ hline
  refine ⟨splitOnSep_append k v hk, ?_, ?_⟩
  · simp [parse_metadata_line, hnone]
  · simp [load_metadata, parse_metadata_line, hnone]

/-- Witness for C10: key `"a"`, value `": b"` (the value's own separator is
kept whole), and the separator-free line `"x"` fails the whole load. -/
theorem metadata_split_semantics_witness :
    splitOnSep (['a'] ++ ':' :: ' ' :: [':', ' ', 'b']) =
      some (['a'], [':', ' ', 'b']) ∧
    parse_metadata_line ['x'] = none ∧
    load_metadata [['x']] = none :=
  metadata_split_semantics ['a'] [':', ' ', 'b'] ['x'] []
    (by decide) (by decide)

/-- Witness for the C7 bug theorem: a single valid token raises at once. -/
theorem no_rounding_boundary_reached_witness :
    detokenize_go gAllValid ["a"] none = none :=
  no_rounding_boundary_reached gAllValid "a" [] none rfl

end KAFY
